import Mathlib

/-!
Verification of the RLlib model contract layer
(`rllib/models/base_model.py`, `rllib/models/torch/model.py`).

The tensor-dictionary and spec-dictionary layer (`TensorDict`, `SpecDict`,
the symbol-binding validator) lives in `ray.rllib.models.temp_spec_classes`,
a module of this repository that is not part of the provided sources; those
definitions are modelled from the specification (see the doc comments).
The contract wrapper (`RecurrentModel.unroll`, `RecurrentModel.initial_state`,
the `Model` adapter, the persistence mixin) is embedded directly from the
Python sources.
-/

/-- Modelled from the spec: an opaque tensor handle.  The tensor layer
"exposes only shape: ordered sequence of non-negative integers, and dtype: an
opaque type tag"; leaf values are never inspected by this layer. -/
structure Tensor where
  shape : List Nat
  dtype : Nat
deriving DecidableEq, Repr, Inhabited

/-- A hierarchical key: a path is a sequence of string segments
(commonly rendered dot-joined). -/
abbrev KeyPath := List String

/-- Modelled from the spec: `TensorDict`, a hierarchical mapping from path to
tensor handle, represented in its dot-path-flattened form (the spec requires a
nested mapping and its flattened form to be treated as identical). Paths are
unique; instances are immutable. -/
structure TensorDict where
  entries : List (KeyPath × Tensor)
deriving DecidableEq, Repr, Inhabited

/-- An axis token of the spec mini-language: a literal positive integer, a
symbol fixed at Spec construction time via a keyword argument, or a free
symbol checked for consistency across the whole validation call. -/
inductive AxisToken where
  | lit : Nat → AxisToken
  | fixedSym : String → Nat → AxisToken
  | freeSym : String → AxisToken
deriving DecidableEq, Repr

/-- Modelled from the spec: a `Spec` is an ordered sequence of axis tokens
plus an optional dtype constraint. -/
structure Spec where
  tokens : List AxisToken
  dtype : Option Nat := none
deriving DecidableEq, Repr, Inhabited

/-- Modelled from the spec: `SpecDict`, a hierarchical mapping from path to a
`Spec`, in flattened form, immutable once constructed. -/
structure SpecDict where
  entries : List (KeyPath × Spec)
deriving DecidableEq, Repr, Inhabited

def TensorDict.empty : TensorDict := ⟨[]⟩

def SpecDict.empty : SpecDict := ⟨[]⟩

/-- Lookup of a path in a `TensorDict`. -/
def TensorDict.get? (d : TensorDict) (p : KeyPath) : Option Tensor :=
  (d.entries.find? (fun kv => kv.1 = p)).map (fun kv => kv.2)

/-- The set of paths present in a `TensorDict`. -/
def TensorDict.keys (d : TensorDict) : List KeyPath :=
  d.entries.map (fun kv => kv.1)

/-- The set of paths declared by a `SpecDict`. -/
def SpecDict.paths (s : SpecDict) : List KeyPath :=
  s.entries.map (fun kv => kv.1)

/-- The validation errors of the spec layer: `MissingKeyError`,
`ShapeMismatchError` (arity or axis-value conflict, including symbol-binding
conflicts), `DtypeMismatchError`. -/
inductive SpecErr where
  | missingKey : KeyPath → SpecErr
  | arityMismatch : KeyPath → SpecErr
  | shapeMismatch : KeyPath → Nat → Nat → Nat → SpecErr
  | dtypeMismatch : KeyPath → SpecErr
deriving DecidableEq, Repr

/-- The transient binding environment of one validation call: symbol name to
the integer first observed for it. -/
abbrev Env := List (String × Nat)

def Env.get? (env : Env) (s : String) : Option Nat :=
  (List.find? (fun kv => kv.1 = s) env).map (fun kv => kv.2)

/-- Modelled from the spec, §4.2 step 3: check the axis tokens of one Spec
against the observed dimensions, threading the binding environment.  A
literal or construction-time fixed symbol must equal the actual dimension; a
free symbol is bound on first sight and must agree afterwards. -/
def checkAxes (p : KeyPath) (toks : List AxisToken) (dims : List Nat) (axis : Nat)
    (env : Env) : Except SpecErr Env :=
  match toks, dims with
  | [], _ => .ok env
  | _, [] => .ok env
  | tok :: toks2, d :: dims2 =>
    match tok with
    | .lit n =>
      if d = n then checkAxes p toks2 dims2 (axis + 1) env
      else .error (.shapeMismatch p axis n d)
    | .fixedSym _ n =>
      if d = n then checkAxes p toks2 dims2 (axis + 1) env
      else .error (.shapeMismatch p axis n d)
    | .freeSym sym =>
      match Env.get? env sym with
      | some n =>
        if d = n then checkAxes p toks2 dims2 (axis + 1) env
        else .error (.shapeMismatch p axis n d)
      | none => checkAxes p toks2 dims2 (axis + 1) ((sym, d) :: env)

/-- Modelled from the spec, §4.2 steps 1-4, for a single declared path:
require the path present, require matching arity, check each axis token, and
finally check the declared dtype if any. -/
def validateEntry (d : TensorDict) (env : Env) (e : KeyPath × Spec) :
    Except SpecErr Env :=
  match d.get? e.1 with
  | none => .error (.missingKey e.1)
  | some t =>
    if t.shape.length = e.2.tokens.length then
      match checkAxes e.1 e.2.tokens t.shape 0 env with
      | .error err => .error err
      | .ok env2 =>
        match e.2.dtype with
        | none => .ok env2
        | some dt => if t.dtype = dt then .ok env2 else .error (.dtypeMismatch e.1)
    else .error (.arityMismatch e.1)

/-- Traversal of the declared paths in declaration order, threading the
binding environment; stops at the first failure. -/
def validateFrom (entries : List (KeyPath × Spec)) (d : TensorDict) (env : Env) :
    Except SpecErr Unit :=
  match entries with
  | [] => .ok ()
  | e :: rest =>
    match validateEntry d env e with
    | .error err => .error err
    | .ok env2 => validateFrom rest d env2

/-- Modelled from the spec: `validate(tensorDict)`: every declared path must
be present with conforming arity, axis values (under the symbol-binding
environment scoped to this call), and dtype; the first failure in declaration
order is reported. -/
def SpecDict.validate (s : SpecDict) (d : TensorDict) : Except SpecErr Unit :=
  validateFrom s.entries d []

/-- Modelled from the spec: `filter(spec)`: a new TensorDict containing
exactly the paths declared in the spec that are present in the source,
dropping everything else; never synthesizes a key absent from the source. -/
def TensorDict.filter (d : TensorDict) (s : SpecDict) : TensorDict :=
  ⟨s.entries.filterMap (fun e => (d.get? e.1).map (fun t => (e.1, t)))⟩

/-- Errors of the contract layer: spec-validation errors, Python attribute
lookup errors, arbitrary domain errors raised by user hooks, and errors
surfaced by the persistence backend. -/
inductive Err where
  | specErr : SpecErr → Err
  | attributeError : String → Err
  | hookErr : String → Err
  | persistenceErr : String → Err
deriving DecidableEq, Repr

/-- Lift a spec-layer failure into the contract layer unchanged. -/
def liftSpec : Except SpecErr Unit → Except Err Unit
  | .ok () => .ok ()
  | .error e => .error (.specErr e)

/-- A concrete subclass of `RecurrentModel`, as the record of everything a
subclass supplies: the four spec accessor properties and the four inner
hooks (`_initial_state`, `_unroll`, `_check_inputs_and_prev_state`,
`_check_outputs_and_next_state`).  Hooks may raise, hence `Except`. -/
structure RecurrentModelClass where
  input_spec : SpecDict
  prev_state_spec : SpecDict
  output_spec : SpecDict
  next_state_spec : SpecDict
  initialStateHook : Except Err TensorDict
  unrollHook : TensorDict → TensorDict → Except Err (TensorDict × TensorDict)
  checkInputsAndPrevState :
    TensorDict → TensorDict → Except Err (TensorDict × TensorDict)
  checkOutputsAndNextState :
    TensorDict → TensorDict → Except Err (TensorDict × TensorDict)

/-- The default `_check_inputs_and_prev_state` of `RecurrentModel`
(base_model.py lines 165-178): the identity. -/
def defaultCheckInputsAndPrevState :
    TensorDict → TensorDict → Except Err (TensorDict × TensorDict) :=
  fun inputs prev_state => .ok (inputs, prev_state)

/-- The default `_check_outputs_and_next_state` of `RecurrentModel`
(base_model.py lines 180-193): the identity. -/
def defaultCheckOutputsAndNextState :
    TensorDict → TensorDict → Except Err (TensorDict × TensorDict) :=
  fun outputs next_state => .ok (outputs, next_state)

/-- `RecurrentModel.unroll` (base_model.py lines 132-163): validate inputs
and prev_state, filter both to their specs, run the input check hook, run
`_unroll`, validate outputs and next_state, run the output check hook, and
return the result. -/
def RecurrentModel.unroll (m : RecurrentModelClass)
    (inputs prev_state : TensorDict) : Except Err (TensorDict × TensorDict) := do
  liftSpec (m.input_spec.validate inputs)
  liftSpec (m.prev_state_spec.validate prev_state)
  let inputs2 := inputs.filter m.input_spec
  let prev2 := prev_state.filter m.prev_state_spec
  let (inputs3, prev3) ← m.checkInputsAndPrevState inputs2 prev2
  let (outputs, next_state) ← m.unrollHook inputs3 prev3
  liftSpec (m.output_spec.validate outputs)
  liftSpec (m.next_state_spec.validate next_state)
  let (outputs2, next2) ← m.checkOutputsAndNextState outputs next_state
  return (outputs2, next2)

/-- `RecurrentModel.initial_state` (base_model.py lines 97-111): call
`_initial_state`, validate the result against `next_state_spec`, return it. -/
def RecurrentModel.initial_state (m : RecurrentModelClass) :
    Except Err TensorDict := do
  let st ← m.initialStateHook
  liftSpec (m.next_state_spec.validate st)
  return st

/-- A concrete subclass of the non-recurrent `Model` (base_model.py lines
196-274): it supplies the input and output specs, the abstract `_forward`
hook, and the simplified single-argument check hooks `_check_inputs` and
`_check_outputs` (identity by default, lines 225-234 and 242-251). -/
structure ModelClass where
  input_spec : SpecDict
  output_spec : SpecDict
  forwardHook : TensorDict → Except Err TensorDict
  checkInputsHook : TensorDict → Except Err TensorDict := fun inputs => .ok inputs
  checkOutputsHook : TensorDict → Except Err TensorDict := fun outputs => .ok outputs

/-- The `Model` adapter over the recurrent contract (base_model.py lines
196-258): `prev_state_spec` and `next_state_spec` are the empty SpecDict,
`_initial_state` returns an empty TensorDict, `_check_inputs_and_prev_state`
delegates to `_check_inputs`, `_check_outputs_and_next_state` delegates to
`_check_outputs`, and `_unroll` deletes `prev_state`, calls `_forward`, and
pairs its result with an empty TensorDict. -/
def Model.toRecurrent (M : ModelClass) : RecurrentModelClass where
  input_spec := M.input_spec
  prev_state_spec := SpecDict.empty
  output_spec := M.output_spec
  next_state_spec := SpecDict.empty
  initialStateHook := .ok TensorDict.empty
  unrollHook := fun inputs _prev_state => do
    let outputs ← M.forwardHook inputs
    return (outputs, TensorDict.empty)
  checkInputsAndPrevState := fun inputs prev_state => do
    let inputs2 ← M.checkInputsHook inputs
    return (inputs2, prev_state)
  checkOutputsAndNextState := fun outputs next_state => do
    let outputs2 ← M.checkOutputsHook outputs
    return (outputs2, next_state)

/-- A Python subclass of `RecurrentModel` as the language actually admits it:
Python has no `final` mechanism, so besides supplying the inner hooks a
subclass is free to override the public entry points `unroll` and
`initial_state` themselves (`None` means the method is inherited from
`RecurrentModel`).  `base_model.py` asks users not to ("Users should override
`_unroll` rather than `unroll`") but contains no enforcement. -/
structure PySubclass where
  hooks : RecurrentModelClass
  unrollOverride :
    Option (TensorDict → TensorDict → Except Err (TensorDict × TensorDict)) := none
  initialStateOverride : Option (Except Err TensorDict) := none

/-- Python method resolution for `unroll` on a subclass instance: the
subclass's own definition if it has one, else the inherited
`RecurrentModel.unroll`. -/
def PySubclass.unroll (c : PySubclass) (inputs prev_state : TensorDict) :
    Except Err (TensorDict × TensorDict) :=
  match c.unrollOverride with
  | some f => f inputs prev_state
  | none => RecurrentModel.unroll c.hooks inputs prev_state

/-- Python method resolution for `initial_state` on a subclass instance. -/
def PySubclass.initial_state (c : PySubclass) : Except Err TensorDict :=
  match c.initialStateOverride with
  | some r => r
  | none => RecurrentModel.initial_state c.hooks

/-- The spec attributes an instance of (a subclass of) `TorchRecurrentModel`
actually carries: the class hierarchy declares exactly the four accessors
`input_spec`, `prev_state_spec`, `output_spec`, `next_state_spec`
(base_model.py lines 65-83); no class defines `initial_state_spec`. -/
structure TorchRecurrentAttrs where
  input_spec : SpecDict
  prev_state_spec : SpecDict
  output_spec : SpecDict
  next_state_spec : SpecDict

/-- Python attribute lookup of a spec attribute on such an instance: any name
other than the four declared accessors raises `AttributeError`. -/
def getattrSpec (a : TorchRecurrentAttrs) (name : String) : Except Err SpecDict :=
  if name = "input_spec" then .ok a.input_spec
  else if name = "prev_state_spec" then .ok a.prev_state_spec
  else if name = "output_spec" then .ok a.output_spec
  else if name = "next_state_spec" then .ok a.next_state_spec
  else .error (.attributeError name)

/-- The value of an axis token as `torch.zeros(spec.shape, ...)` would read
it; never reached by `TorchRecurrentModel._initial_state` because the
attribute lookup preceding it fails. -/
def axisTokenValue : AxisToken → Nat
  | .lit n => n
  | .fixedSym _ n => n
  | .freeSym _ => 0

/-- Zero-filled tensors for every path of a spec, as
`tree.map_structure(lambda spec: torch.zeros(spec.shape, dtype=spec.dtype), ...)`
would build them. -/
def zerosFromSpec (s : SpecDict) : TensorDict :=
  ⟨s.entries.map (fun e =>
    (e.1, { shape := e.2.tokens.map axisTokenValue, dtype := e.2.dtype.getD 0 }))⟩

/-- `TorchRecurrentModel._initial_state` (torch/model.py lines 112-127): read
`self.initial_state_spec` and build zero tensors from it.  The attribute read
is modelled explicitly because no class in the hierarchy defines it. -/
def TorchRecurrentModel.initialStateDefault (a : TorchRecurrentAttrs) :
    Except Err TensorDict := do
  let spec ← getattrSpec a "initial_state_spec"
  return zerosFromSpec spec

/-- The parametric state of a torch model: `state_dict()`, a mapping from
parameter name to parameter value.  Parameter values are opaque to this
layer; they are modelled as an opaque tag. -/
abbrev StateDict := List (String × Int)

/-- A torch model as the persistence layer sees it: an opaque configuration
and the current learnable parameters. -/
structure TorchModelState where
  config : Nat
  state : StateDict
deriving DecidableEq, Repr

/-- The durable storage `torch.save`/`torch.load` write to and read from:
a mapping from path to the saved state dict. -/
abbrev CheckpointStore := List (String × StateDict)

/-- `TorchModelIO.save` (torch/model.py lines 21-30):
`torch.save(self.state_dict(), path)` writes the current state dict to
`path`. The torch backend is external; it is modelled as a store update. -/
def TorchModelSaveLoad.save (m : TorchModelState) (path : String)
    (fs : CheckpointStore) : CheckpointStore :=
  (path, m.state) :: fs

/-- `torch.load(path)`: read back the object saved at `path`; missing files
are the backend's failure. -/
def torchLoad (fs : CheckpointStore) (path : String) : Except Err StateDict :=
  match fs.find? (fun e => e.1 = path) with
  | some e => .ok e.2
  | none => .error (.persistenceErr path)

/-- `nn.Module.load_state_dict`: replace the model's parameters by the loaded
ones; with its default strict mode the parameter names must coincide
(guaranteed when both models were constructed from identical
configurations). -/
def load_state_dict (m : TorchModelState) (sd : StateDict) :
    Except Err TorchModelState :=
  if sd.map (fun kv => kv.1) = m.state.map (fun kv => kv.1) then
    .ok { m with state := sd }
  else .error (.persistenceErr "state dict key mismatch")

/-- `TorchModelIO.load` (torch/model.py lines 32-40):
`self.load_state_dict(torch.load(path))`. -/
def TorchModelSaveLoad.load (m : TorchModelState) (path : String)
    (fs : CheckpointStore) : Except Err TorchModelState := do
  let sd ← torchLoad fs path
  load_state_dict m sd

/-! Concrete instances, mirroring the models of
`rllib/models/tests/test_torch_model.py`, used to evaluate the theorems on
explicit inputs. -/

/-- A spec declaring the single path `in` of shape `(2)`. -/
def specIn2 : SpecDict := ⟨[(["in"], { tokens := [.lit 2] })]⟩

/-- A model whose hooks are all the inherited defaults except `_unroll`,
which echoes its arguments, and whose `input_spec` is `specIn2`. -/
def baseHooksModel : RecurrentModelClass where
  input_spec := specIn2
  prev_state_spec := SpecDict.empty
  output_spec := SpecDict.empty
  next_state_spec := SpecDict.empty
  initialStateHook := .ok TensorDict.empty
  unrollHook := fun inputs prev_state => .ok (inputs, prev_state)
  checkInputsAndPrevState := defaultCheckInputsAndPrevState
  checkOutputsAndNextState := defaultCheckOutputsAndNextState

/-- A model whose `_initial_state` returns an empty dict although
`next_state_spec` declares the path `in`. -/
def strictStateModel : RecurrentModelClass :=
  { baseHooksModel with input_spec := SpecDict.empty, next_state_spec := specIn2 }

/-- A Python subclass that overrides the public `unroll` itself, returning
its arguments unvalidated and unfiltered.  Python accepts this class. -/
def evilSubclass : PySubclass where
  hooks := baseHooksModel
  unrollOverride := some (fun inputs prev_state => .ok (inputs, prev_state))

/-- A Python subclass that overrides only inner hooks, leaving `unroll` and
`initial_state` inherited. -/
def plainSubclass : PySubclass where
  hooks := baseHooksModel

/-- The outputs `SimpleRecurrentModel._unroll` produces: `out` of shape
`(6, 8, 3)` (the test's `B = 6`, `T = 8`). -/
def simpleOutputs : TensorDict := ⟨[(["out"], { shape := [6, 8, 3], dtype := 0 })]⟩

/-- The next state `SimpleRecurrentModel._unroll` produces: `out` of shape
`(6, 5)`. -/
def simpleNextState : TensorDict := ⟨[(["out"], { shape := [6, 5], dtype := 0 })]⟩

/-- The embedding of `SimpleRecurrentModel` from the tests: `input_spec`
declares `in` of shape `(b, t, 2)`, `prev_state_spec` declares `in` of shape
`(b, 4)`, `output_spec` declares `out` of shape `(b, t, 3)`,
`next_state_spec` declares `out` of shape `(b, 5)`; `_unroll` returns fixed
conforming outputs (the test's `arange` tensors, with `B = 6`, `T = 8`). -/
def simpleRecurrentModel : RecurrentModelClass where
  input_spec := ⟨[(["in"], { tokens := [.freeSym "b", .freeSym "t", .fixedSym "h" 2] })]⟩
  prev_state_spec := ⟨[(["in"], { tokens := [.freeSym "b", .fixedSym "h" 4] })]⟩
  output_spec := ⟨[(["out"], { tokens := [.freeSym "b", .freeSym "t", .fixedSym "h" 3] })]⟩
  next_state_spec := ⟨[(["out"], { tokens := [.freeSym "b", .fixedSym "h" 5] })]⟩
  initialStateHook := .ok TensorDict.empty
  unrollHook := fun _inputs _prev_state => .ok (simpleOutputs, simpleNextState)
  checkInputsAndPrevState := defaultCheckInputsAndPrevState
  checkOutputsAndNextState := defaultCheckOutputsAndNextState

/-- The test's inputs including the undeclared `bork` path. -/
def inputsWithBork : TensorDict :=
  ⟨[(["in"], { shape := [6, 8, 2], dtype := 0 }),
    (["bork"], { shape := [5, 4], dtype := 0 })]⟩

/-- The same inputs without `bork`. -/
def inputsNoBork : TensorDict := ⟨[(["in"], { shape := [6, 8, 2], dtype := 0 })]⟩

/-- The test's previous state including the undeclared `bork` path. -/
def prevStateWithBork : TensorDict :=
  ⟨[(["in"], { shape := [6, 4], dtype := 0 }),
    (["bork"], { shape := [5, 4], dtype := 0 })]⟩

/-- The same previous state without `bork`. -/
def prevStateNoBork : TensorDict := ⟨[(["in"], { shape := [6, 4], dtype := 0 })]⟩

/-- A non-recurrent model that echoes its (filtered) inputs. -/
def simpleForwardModel : ModelClass where
  input_spec := SpecDict.empty
  output_spec := SpecDict.empty
  forwardHook := fun inputs => .ok inputs

/-- A spec declaring the single path `out` of shape `(3)`. -/
def specOut3 : SpecDict := ⟨[(["out"], { tokens := [.lit 3] })]⟩

/-- A dict conforming to `specOut3`. -/
def outDict3 : TensorDict := ⟨[(["out"], { shape := [3], dtype := 0 })]⟩

/-- A dict violating `specOut3` (axis 0 is 99, not 3). -/
def outDict99 : TensorDict := ⟨[(["out"], { shape := [99], dtype := 0 })]⟩

/-- A dict whose only path, `junk`, is declared by no spec. -/
def junkDict : TensorDict := ⟨[(["junk"], { shape := [1], dtype := 0 })]⟩

/-- A model whose `_check_outputs_and_next_state` override swaps the already
validated outputs for a dict that violates `output_spec`. -/
def swapOutputsModel : RecurrentModelClass where
  input_spec := SpecDict.empty
  prev_state_spec := SpecDict.empty
  output_spec := specOut3
  next_state_spec := SpecDict.empty
  initialStateHook := .ok TensorDict.empty
  unrollHook := fun _inputs _prev_state => .ok (outDict3, TensorDict.empty)
  checkInputsAndPrevState := defaultCheckInputsAndPrevState
  checkOutputsAndNextState := fun _outputs next_state => .ok (outDict99, next_state)

/-- A model whose `_check_inputs_and_prev_state` override replaces the
filtered inputs by `junkDict`; `_unroll` echoes what it receives, so the
result of `unroll` reveals the dict `_unroll` was given. -/
def sneakInputsModel : RecurrentModelClass where
  input_spec := SpecDict.empty
  prev_state_spec := SpecDict.empty
  output_spec := SpecDict.empty
  next_state_spec := SpecDict.empty
  initialStateHook := .ok TensorDict.empty
  unrollHook := fun inputs prev_state => .ok (inputs, prev_state)
  checkInputsAndPrevState := fun _inputs prev_state => .ok (junkDict, prev_state)
  checkOutputsAndNextState := defaultCheckOutputsAndNextState

/-- The test's `IOTorchModel(value=1.0)`: one parameter named `weights`. -/
def savedTorchModel : TorchModelState := { config := 0, state := [("weights", 1)] }

/-- The test's `IOTorchModel(value=2.0)`: same configuration, different
initial parameter value. -/
def freshTorchModel : TorchModelState := { config := 0, state := [("weights", 2)] }

/-! Helper lemmas about the `Except` monad and the spec layer, shared by the
claim theorems. -/

theorem exceptBind_ok_iff {α β ε : Type} (a : Except ε α) (f : α → Except ε β)
    (r : β) : (a >>= f) = .ok r ↔ ∃ x, a = .ok x ∧ f x = .ok r := by
  cases a with
  | error e => simp [Bind.bind, Except.bind]
  | ok x => simp [Bind.bind, Except.bind]

theorem exceptBind_error_iff {α β ε : Type} (a : Except ε α) (f : α → Except ε β)
    (e : ε) : (a >>= f) = .error e ↔
      (a = .error e ∨ ∃ x, a = .ok x ∧ f x = .error e) := by
  cases a with
  | error e2 => simp [Bind.bind, Except.bind]
  | ok x => simp [Bind.bind, Except.bind]

theorem liftSpec_ok_iff (v : Except SpecErr Unit) (u : Unit) :
    liftSpec v = .ok u ↔ v = .ok () := by
  cases v with
  | ok w => cases w; simp [liftSpec]
  | error e => simp [liftSpec]

theorem liftSpec_error (e : SpecErr) : liftSpec (.error e) = .error (.specErr e) := rfl

/-- The characterization of a successful `unroll` as the spec's pipeline;
shared backbone of several claim theorems. -/
theorem unroll_ok_iff (m : RecurrentModelClass) (inputs prev_state o n : TensorDict) :
    RecurrentModel.unroll m inputs prev_state = .ok (o, n) ↔
      (m.input_spec.validate inputs = .ok () ∧
       m.prev_state_spec.validate prev_state = .ok () ∧
       ∃ ci cp o0 n0,
         m.checkInputsAndPrevState (inputs.filter m.input_spec)
             (prev_state.filter m.prev_state_spec) = .ok (ci, cp) ∧
         m.unrollHook ci cp = .ok (o0, n0) ∧
         m.output_spec.validate o0 = .ok () ∧
         m.next_state_spec.validate n0 = .ok () ∧
         m.checkOutputsAndNextState o0 n0 = .ok (o, n)) := by
  simp only [RecurrentModel.unroll, exceptBind_ok_iff, liftSpec_ok_iff,
    Pure.pure, Except.pure]
  constructor
  · rintro ⟨u, h1, u2, h2, ⟨ci, cp⟩, h3, ⟨o0, n0⟩, h4, u3, h5, u4, h6, ⟨o2, n2⟩, h7, h8⟩
    cases h8
    exact ⟨h1, h2, ci, cp, o0, n0, h3, h4, h5, h6, h7⟩
  · rintro ⟨h1, h2, ci, cp, o0, n0, h3, h4, h5, h6, h7⟩
    exact ⟨(), h1, (), h2, (ci, cp), h3, (o0, n0), h4, (), h5, (), h6, (o, n), h7, rfl⟩

/-- C1: `unroll` performs exactly the validate-validate-filter-filter-check,
`_unroll`, validate-validate-check pipeline, in that order, and returns the
final checked pair.  Stated as: a call succeeds with `(o, n)` precisely when
every stage of that pipeline, run in that order on the filtered dictionaries,
succeeds and the final check hook returns `(o, n)`. -/
theorem unroll_is_spec_pipeline (m : RecurrentModelClass)
    (inputs prev_state o n : TensorDict) :
    RecurrentModel.unroll m inputs prev_state = .ok (o, n) ↔
      (m.input_spec.validate inputs = .ok () ∧
       m.prev_state_spec.validate prev_state = .ok () ∧
       ∃ ci cp o0 n0,
         m.checkInputsAndPrevState (inputs.filter m.input_spec)
             (prev_state.filter m.prev_state_spec) = .ok (ci, cp) ∧
         m.unrollHook ci cp = .ok (o0, n0) ∧
         m.output_spec.validate o0 = .ok () ∧
         m.next_state_spec.validate n0 = .ok () ∧
         m.checkOutputsAndNextState o0 n0 = .ok (o, n)) :=
  unroll_ok_iff m inputs prev_state o n

/-- C3: validation failures and hook failures are fatal and propagate
unchanged.  (i) If input validation fails with `e`, `unroll` returns exactly
that error whatever `_unroll` and the input check hook are (so `_unroll` is
never consulted); (ii) likewise for prev-state validation; (iii) an error
raised by `_unroll` propagates unchanged; (iv) an output-validation failure
propagates as exactly the validator's error. -/
theorem unroll_fail_fast (m : RecurrentModelClass) (inputs prev_state : TensorDict) :
    (∀ e, m.input_spec.validate inputs = .error e →
      ∀ f g, RecurrentModel.unroll
        { m with unrollHook := f, checkInputsAndPrevState := g }
        inputs prev_state = .error (.specErr e)) ∧
    (∀ e, m.input_spec.validate inputs = .ok () →
      m.prev_state_spec.validate prev_state = .error e →
      ∀ f g, RecurrentModel.unroll
        { m with unrollHook := f, checkInputsAndPrevState := g }
        inputs prev_state = .error (.specErr e)) ∧
    (∀ err ci cp, m.input_spec.validate inputs = .ok () →
      m.prev_state_spec.validate prev_state = .ok () →
      m.checkInputsAndPrevState (inputs.filter m.input_spec)
          (prev_state.filter m.prev_state_spec) = .ok (ci, cp) →
      m.unrollHook ci cp = .error err →
      RecurrentModel.unroll m inputs prev_state = .error err) ∧
    (∀ e ci cp o0 n0, m.input_spec.validate inputs = .ok () →
      m.prev_state_spec.validate prev_state = .ok () →
      m.checkInputsAndPrevState (inputs.filter m.input_spec)
          (prev_state.filter m.prev_state_spec) = .ok (ci, cp) →
      m.unrollHook ci cp = .ok (o0, n0) →
      m.output_spec.validate o0 = .error e →
      RecurrentModel.unroll m inputs prev_state = .error (.specErr e)) := by
  refine ⟨?_, ?_, ?_, ?_⟩
  · intro e he f g
    simp [RecurrentModel.unroll, he, liftSpec, Bind.bind, Except.bind]
  · intro e h1 h2 f g
    simp [RecurrentModel.unroll, h1, h2, liftSpec, Bind.bind, Except.bind]
  · intro err ci cp h1 h2 h3 h4
    simp [RecurrentModel.unroll, h1, h2, h3, h4, liftSpec, Bind.bind, Except.bind]
  · intro e ci cp o0 n0 h1 h2 h3 h4 h5
    simp [RecurrentModel.unroll, h1, h2, h3, h4, h5, liftSpec, Bind.bind, Except.bind]

/-- Witness for C3: on `baseHooksModel` with empty input, input validation
fails with `MissingKeyError` on path `in`, and `unroll` returns exactly that
error even when `_unroll` is replaced by a hook that would raise its own
error. -/
theorem unroll_fail_fast_witness :
    RecurrentModel.unroll
      { baseHooksModel with
          unrollHook := fun _inputs _prev_state => .error (.hookErr "boom"),
          checkInputsAndPrevState := defaultCheckInputsAndPrevState }
      TensorDict.empty TensorDict.empty
      = .error (.specErr (.missingKey ["in"])) :=
  (unroll_fail_fast baseHooksModel TensorDict.empty TensorDict.empty).1
    (.missingKey ["in"]) rfl
    (fun _inputs _prev_state => .error (.hookErr "boom"))
    defaultCheckInputsAndPrevState

/-- C6: `initial_state` calls `_initial_state` and validates the result
against `next_state_spec`: it succeeds with `d` precisely when the hook
returned `d` and `d` validates, and when the hook's output fails validation,
`initial_state` fails with exactly the validator's error. -/
theorem initial_state_validates (m : RecurrentModelClass) (d : TensorDict) :
    (RecurrentModel.initial_state m = .ok d ↔
      (m.initialStateHook = .ok d ∧ m.next_state_spec.validate d = .ok ())) ∧
    (∀ e, m.initialStateHook = .ok d → m.next_state_spec.validate d = .error e →
      RecurrentModel.initial_state m = .error (.specErr e)) := by
  constructor
  · simp only [RecurrentModel.initial_state, exceptBind_ok_iff, liftSpec_ok_iff,
      Pure.pure, Except.pure]
    constructor
    · rintro ⟨x, h1, u, h2, h3⟩
      cases h3
      exact ⟨h1, h2⟩
    · rintro ⟨h1, h2⟩
      exact ⟨d, h1, (), h2, rfl⟩
  · intro e h1 h2
    simp [RecurrentModel.initial_state, h1, h2, liftSpec, Bind.bind, Except.bind]

/-- Witness for C6: `strictStateModel`'s hook returns an empty dict while
`next_state_spec` declares `in`, so `initial_state` fails with the
validator's `MissingKeyError`. -/
theorem initial_state_validates_witness :
    RecurrentModel.initial_state strictStateModel
      = .error (.specErr (.missingKey ["in"])) :=
  (initial_state_validates strictStateModel TensorDict.empty).2
    (.missingKey ["in"]) rfl rfl

/-- Witness for C1: the pipeline characterization evaluated on the test's
`SimpleRecurrentModel` with conforming inputs. -/
theorem unroll_is_spec_pipeline_witness :
    RecurrentModel.unroll simpleRecurrentModel inputsNoBork prevStateNoBork
        = .ok (simpleOutputs, simpleNextState) ∧
    (simpleRecurrentModel.input_spec.validate inputsNoBork = .ok () ∧
     simpleRecurrentModel.prev_state_spec.validate prevStateNoBork = .ok () ∧
     ∃ ci cp o0 n0,
       simpleRecurrentModel.checkInputsAndPrevState
           (inputsNoBork.filter simpleRecurrentModel.input_spec)
           (prevStateNoBork.filter simpleRecurrentModel.prev_state_spec)
           = .ok (ci, cp) ∧
       simpleRecurrentModel.unrollHook ci cp = .ok (o0, n0) ∧
       simpleRecurrentModel.output_spec.validate o0 = .ok () ∧
       simpleRecurrentModel.next_state_spec.validate n0 = .ok () ∧
       simpleRecurrentModel.checkOutputsAndNextState o0 n0
           = .ok (simpleOutputs, simpleNextState)) :=
  ⟨rfl, (unroll_is_spec_pipeline simpleRecurrentModel inputsNoBork
      prevStateNoBork simpleOutputs simpleNextState).mp rfl⟩

/-! Lemmas about key sets and about which paths the spec layer reads. -/

theorem get?_some_iff_mem_keys (d : TensorDict) (q : KeyPath) :
    (∃ t, d.get? q = some t) ↔ q ∈ d.keys := by
  rw [← Option.isSome_iff_exists]
  unfold TensorDict.get? TensorDict.keys
  rw [Option.isSome_map', List.find?_isSome]
  simp [List.mem_map]

theorem mem_filter_keys_iff (d : TensorDict) (s : SpecDict) (q : KeyPath) :
    q ∈ (d.filter s).keys ↔ (q ∈ d.keys ∧ q ∈ s.paths) := by
  rw [← get?_some_iff_mem_keys d q]
  simp only [TensorDict.filter, TensorDict.keys, SpecDict.paths, List.mem_map,
    List.mem_filterMap, Option.map_eq_some]
  aesop

/-- `filter` reads only the declared paths of the source. -/
theorem filter_agree (d1 d2 : TensorDict) (s : SpecDict)
    (h : ∀ q ∈ s.paths, d1.get? q = d2.get? q) :
    d1.filter s = d2.filter s := by
  unfold TensorDict.filter
  congr 1
  apply List.filterMap_congr
  intro e he
  rw [h e.1 (List.mem_map_of_mem (fun kv => kv.1) he)]

/-- The validator reads only the declared paths of the dictionary. -/
theorem validateFrom_agree (entries : List (KeyPath × Spec)) (d1 d2 : TensorDict)
    (env : Env) (h : ∀ q ∈ entries.map (fun kv => kv.1), d1.get? q = d2.get? q) :
    validateFrom entries d1 env = validateFrom entries d2 env := by
  induction entries generalizing env with
  | nil => rfl
  | cons e rest ih =>
    have he : d1.get? e.1 = d2.get? e.1 := h e.1 (by simp)
    have hrest : ∀ q ∈ rest.map (fun kv => kv.1), d1.get? q = d2.get? q := by
      intro q hq
      apply h
      simp only [List.map_cons, List.mem_cons]
      exact Or.inr hq
    have hent : validateEntry d1 env e = validateEntry d2 env e := by
      unfold validateEntry
      rw [he]
    unfold validateFrom
    rw [hent]
    cases h2 : validateEntry d2 env e with
    | error err => rfl
    | ok env2 => exact ih env2 hrest

/-- C2, counterexample: the public entry points are ordinary Python methods
and can be overridden.  `evilSubclass` overrides `unroll` itself; its call
succeeds on input that fails `input_spec` validation, while the inherited
contract pipeline on the same hooks and input fails — so a subclass CAN
cause a call to `unroll` to skip validation and filtering. -/
theorem unroll_not_overridable_counterexample :
    PySubclass.unroll evilSubclass TensorDict.empty TensorDict.empty
        = .ok (TensorDict.empty, TensorDict.empty) ∧
    RecurrentModel.unroll evilSubclass.hooks TensorDict.empty TensorDict.empty
        = .error (.specErr (.missingKey ["in"])) :=
  ⟨rfl, rfl⟩

/-- C2, amended: a subclass that leaves the public entry points inherited
(overriding only the inner hooks) always goes through the full
validation/filtering pipeline of `RecurrentModel.unroll` and
`RecurrentModel.initial_state`; the non-overridability itself is a
documented convention of `base_model.py`, not an enforced property. -/
theorem unroll_inherited_performs_pipeline (c : PySubclass)
    (h1 : c.unrollOverride = none) (h2 : c.initialStateOverride = none) :
    (∀ inputs prev_state, PySubclass.unroll c inputs prev_state =
        RecurrentModel.unroll c.hooks inputs prev_state) ∧
    PySubclass.initial_state c = RecurrentModel.initial_state c.hooks := by
  constructor
  · intro inputs prev_state
    simp [PySubclass.unroll, h1]
  · simp [PySubclass.initial_state, h2]

/-- Witness for the amended C2. -/
theorem unroll_inherited_performs_pipeline_witness :
    PySubclass.unroll plainSubclass TensorDict.empty TensorDict.empty =
      RecurrentModel.unroll baseHooksModel TensorDict.empty TensorDict.empty :=
  (unroll_inherited_performs_pipeline plainSubclass rfl rfl).1
    TensorDict.empty TensorDict.empty

/-- C4: calls whose inputs and previous states agree on every declared path
(differing only on undeclared paths) behave identically — same error or same
success with identical results — and the filtered dictionaries handed to the
hook stage contain no path undeclared in the corresponding spec. -/
theorem unroll_depends_only_on_declared (m : RecurrentModelClass)
    (i1 p1 i2 p2 : TensorDict)
    (hi : ∀ q ∈ m.input_spec.paths, i1.get? q = i2.get? q)
    (hp : ∀ q ∈ m.prev_state_spec.paths, p1.get? q = p2.get? q) :
    RecurrentModel.unroll m i1 p1 = RecurrentModel.unroll m i2 p2 ∧
    (∀ q ∈ (i1.filter m.input_spec).keys, q ∈ m.input_spec.paths) ∧
    (∀ q ∈ (p1.filter m.prev_state_spec).keys, q ∈ m.prev_state_spec.paths) := by
  have hv1 : m.input_spec.validate i1 = m.input_spec.validate i2 :=
    validateFrom_agree m.input_spec.entries i1 i2 [] hi
  have hv2 : m.prev_state_spec.validate p1 = m.prev_state_spec.validate p2 :=
    validateFrom_agree m.prev_state_spec.entries p1 p2 [] hp
  have hf1 : i1.filter m.input_spec = i2.filter m.input_spec :=
    filter_agree i1 i2 m.input_spec hi
  have hf2 : p1.filter m.prev_state_spec = p2.filter m.prev_state_spec :=
    filter_agree p1 p2 m.prev_state_spec hp
  refine ⟨?_, ?_, ?_⟩
  · unfold RecurrentModel.unroll
    rw [hv1, hv2, hf1, hf2]
  · intro q hq
    exact ((mem_filter_keys_iff i1 m.input_spec q).mp hq).2
  · intro q hq
    exact ((mem_filter_keys_iff p1 m.prev_state_spec q).mp hq).2

/-- Witness for C4: the test scenario — adding the undeclared `bork` path to
both dictionaries does not change the result of `unroll`, which equals the
test's expected output. -/
theorem unroll_depends_only_on_declared_witness :
    RecurrentModel.unroll simpleRecurrentModel inputsWithBork prevStateWithBork =
      RecurrentModel.unroll simpleRecurrentModel inputsNoBork prevStateNoBork ∧
    RecurrentModel.unroll simpleRecurrentModel inputsWithBork prevStateWithBork =
      .ok (simpleOutputs, simpleNextState) :=
  ⟨(unroll_depends_only_on_declared simpleRecurrentModel inputsWithBork
      prevStateWithBork inputsNoBork prevStateNoBork (by decide) (by decide)).1,
   rfl⟩

/-- C5: the key set of `d.filter s` is exactly `keys d ∩ paths s`: `filter`
keeps precisely the spec-declared paths present in the source, adds no key
absent from the source (even if declared in the spec), and keeps no key
absent from the spec.  (Source immutability and structure preservation are
built into the embedding: `filter` constructs a new dictionary and `d` is
untouched.) -/
theorem filter_keys_eq_intersection (d : TensorDict) (s : SpecDict) (q : KeyPath) :
    q ∈ (d.filter s).keys ↔ (q ∈ d.keys ∧ q ∈ s.paths) :=
  mem_filter_keys_iff d s q

/-- Witness for C5: Scenario A of the spec — filtering the dictionary
containing `in` and the undeclared `bork` keeps exactly `in`. -/
theorem filter_keys_eq_intersection_witness :
    (["in"] ∈ (inputsWithBork.filter simpleRecurrentModel.input_spec).keys ↔
      (["in"] ∈ inputsWithBork.keys ∧
       ["in"] ∈ simpleRecurrentModel.input_spec.paths)) ∧
    (inputsWithBork.filter simpleRecurrentModel.input_spec).keys = [["in"]] :=
  ⟨filter_keys_eq_intersection inputsWithBork simpleRecurrentModel.input_spec ["in"],
   rfl⟩

/-- C7: the `Model` adapter fixes `prev_state_spec` and `next_state_spec` to
the empty spec, `_initial_state` to the empty dict, and `_unroll` to ignore
`prev_state` and return `(_forward(inputs), empty)`; consequently the second
component of every successful `unroll` is the empty TensorDict.  The adapter
reuses `RecurrentModel.unroll`/`initial_state` unchanged: it only fills the
inner hook fields. -/
theorem model_adapter_contract (M : ModelClass) (inputs prev_state : TensorDict) :
    (Model.toRecurrent M).prev_state_spec = SpecDict.empty ∧
    (Model.toRecurrent M).next_state_spec = SpecDict.empty ∧
    (Model.toRecurrent M).initialStateHook = .ok TensorDict.empty ∧
    (∀ p2, (Model.toRecurrent M).unrollHook inputs prev_state =
        (Model.toRecurrent M).unrollHook inputs p2) ∧
    ((Model.toRecurrent M).unrollHook inputs prev_state =
        (M.forwardHook inputs).map (fun outputs => (outputs, TensorDict.empty))) ∧
    (∀ o n, RecurrentModel.unroll (Model.toRecurrent M) inputs prev_state
        = .ok (o, n) → n = TensorDict.empty) := by
  refine ⟨rfl, rfl, rfl, fun p2 => rfl, ?_, ?_⟩
  · show (M.forwardHook inputs >>= fun outputs => pure (outputs, TensorDict.empty))
        = (M.forwardHook inputs).map (fun outputs => (outputs, TensorDict.empty))
    cases M.forwardHook inputs <;> rfl
  · intro o n h
    rw [unroll_ok_iff] at h
    obtain ⟨h1, h2, ci, cp, o0, n0, h3, h4, h5, h6, h7⟩ := h
    simp only [Model.toRecurrent, exceptBind_ok_iff, Pure.pure, Except.pure,
      Except.ok.injEq, Prod.mk.injEq] at h4 h7
    obtain ⟨x, hx, hxo, hxn⟩ := h4
    obtain ⟨y, hy, hyo, hyn⟩ := h7
    rw [← hyn, ← hxn]

/-- Witness for C7: on the concrete echoing forward model, `unroll` succeeds
and the theorem yields the emptiness of the returned state. -/
theorem model_adapter_contract_witness :
    RecurrentModel.unroll (Model.toRecurrent simpleForwardModel)
        TensorDict.empty TensorDict.empty
        = .ok (TensorDict.empty, TensorDict.empty) ∧
    TensorDict.empty = TensorDict.empty :=
  ⟨rfl, (model_adapter_contract simpleForwardModel TensorDict.empty
      TensorDict.empty).2.2.2.2.2 TensorDict.empty TensorDict.empty rfl⟩

/-- C8: saving model `m` and loading into `m2` (constructed with identical
configuration, hence with the same parameter names) leaves `m2`'s parametric
state equal to `m`'s at save time, whatever `m2`'s parameters were before. -/
theorem save_load_restores_state (m m2 : TorchModelState) (path : String)
    (fs : CheckpointStore) (hcfg : m2.config = m.config)
    (hkeys : m2.state.map (fun kv => kv.1) = m.state.map (fun kv => kv.1)) :
    TorchModelSaveLoad.load m2 path (TorchModelSaveLoad.save m path fs)
      = .ok { m2 with state := m.state } := by
  unfold TorchModelSaveLoad.load TorchModelSaveLoad.save torchLoad
  rw [List.find?_cons_of_pos _ (by simp)]
  simp [load_state_dict, hkeys, Bind.bind, Except.bind]

/-- Witness for C8: the test's Scenario C — save at value 1, load into a
fresh model holding value 2; its parameters now equal the first model's. -/
theorem save_load_restores_state_witness :
    TorchModelSaveLoad.load freshTorchModel "bork"
        (TorchModelSaveLoad.save savedTorchModel "bork" [])
      = .ok { config := 0, state := [("weights", 1)] } :=
  save_load_restores_state savedTorchModel freshTorchModel "bork" [] rfl rfl

/-- C9: the inherited `TorchRecurrentModel._initial_state` reads
`self.initial_state_spec`, an attribute no class in the hierarchy defines,
so it always fails with an attribute-lookup error — and `initial_state`
built on it fails with that same error before any validation, whatever the
model's specs are; the documented zero-filled default is never produced. -/
theorem torch_initial_state_attribute_error (a : TorchRecurrentAttrs)
    (m : RecurrentModelClass) :
    TorchRecurrentModel.initialStateDefault a
        = .error (.attributeError "initial_state_spec") ∧
    RecurrentModel.initial_state
        { m with initialStateHook := TorchRecurrentModel.initialStateDefault a }
        = .error (.attributeError "initial_state_spec") := by
  have h : getattrSpec a "initial_state_spec"
      = .error (.attributeError "initial_state_spec") := by
    simp [getattrSpec]
  constructor
  · simp [TorchRecurrentModel.initialStateDefault, h, Bind.bind, Except.bind]
  · simp [RecurrentModel.initial_state, TorchRecurrentModel.initialStateDefault,
      h, Bind.bind, Except.bind]

/-- C10: `unroll` validates only the direct results of `_unroll` and returns
whatever `_check_outputs_and_next_state` produces without re-validating:
`swapOutputsModel` (overriding only that hook) makes `unroll` return a dict
violating `output_spec` with no error; symmetrically, `sneakInputsModel`
shows the result of `_check_inputs_and_prev_state` reaching `_unroll`
without re-validation or re-filtering (the undeclared `junk` path flows
through to the returned outputs). -/
theorem unroll_no_revalidation_after_check :
    (RecurrentModel.unroll swapOutputsModel TensorDict.empty TensorDict.empty
        = .ok (outDict99, TensorDict.empty)) ∧
    (SpecDict.validate swapOutputsModel.output_spec outDict99
        = .error (.shapeMismatch ["out"] 0 3 99)) ∧
    (RecurrentModel.unroll sneakInputsModel TensorDict.empty TensorDict.empty
        = .ok (junkDict, TensorDict.empty)) ∧
    (∀ q ∈ junkDict.keys, q ∉ sneakInputsModel.input_spec.paths) :=
  ⟨rfl, rfl, rfl, by decide⟩
